import Mathlib

/-!
Verification development for the `realyieldagent` repository (plugin in
`src/unnamed/part_000`).  The definitions below are a shallow embedding of the
property-search plugin: the criteria extractor, the listing gateway
(`fetchAds`), the preference store (`saveSearchPreferences`), the detail fetch
with retry (`fetchPropertyDetails`) and the `SEARCH_LISTINGS` dialogue
handler.  External I/O (HTTP responses, database rows) is supplied explicitly
as arguments, so every definition is executable.  JavaScript regular
expressions are modelled by specialised leftmost-match scanners over lowercased
character lists; JavaScript truthiness (`""` and `0` are falsy) is modelled
explicitly at each use site.  `parseFloat` on the captured numeric literal is
modelled by exact decimal arithmetic (binary floating-point rounding of the
double value is not modelled; it is irrelevant for the magnitudes the claims
are about).
-/

namespace RealYield

/-! ## Character and list helpers -/

/-- Whitespace class of the JavaScript regex `\s` restricted to the ASCII
whitespace characters that can occur here. -/
def jsIsSpace (c : Char) : Bool :=
  c = ' ' || c = '\t' || c = '\n' || c = '\r' || c = '\x0b' || c = '\x0c'

/-- Lowercased character list of a string; models `String.toLowerCase` /
the `i` regex flag for the ASCII texts handled by the plugin. -/
def lcList (s : String) : List Char := s.data.map Char.toLower

/-- Models `String.trim`: strip leading and trailing whitespace. -/
def jsTrim (l : List Char) : List Char :=
  ((l.dropWhile jsIsSpace).reverse.dropWhile jsIsSpace).reverse

/-- Does any suffix of the text satisfy `p`?  This is the leftmost-scan
skeleton of an unanchored regex test. -/
def anySuffix (p : List Char → Bool) : List Char → Bool
  | [] => p []
  | c :: rest => p (c :: rest) || anySuffix p rest

/-- Leftmost scan returning the first position where `f` yields a result;
models the match of an unanchored regex (smallest start index wins). -/
def firstSome {α : Type} (f : List Char → Option α) : List Char → Option α
  | [] => f []
  | c :: rest =>
    match f (c :: rest) with
    | some a => some a
    | none => firstSome f rest

/-- `hay.includes(needle)`: substring test. -/
def listIncludes (hay needle : List Char) : Bool :=
  anySuffix (fun s => needle.isPrefixOf s) hay

/-- Numeric value of a digit string. -/
def digitsToNat (l : List Char) : Nat :=
  l.foldl (fun n c => n * 10 + (c.toNat - 48)) 0

/-! ## Criteria extractor (`extractSearchCriteria`, part_000 lines 369-451) -/

/-- Bedroom value carried in criteria: the source field has type
`string | number`. -/
inductive BedVal where
  | str (s : String)
  | num (n : Int)
deriving Repr, DecidableEq

/-- Partial structured search criteria (part_000 lines 370-376). -/
structure Criteria where
  area : Option String := none
  propertyType : Option String := none
  bedrooms : Option BedVal := none
  maxPrice : Option Nat := none
  minPrice : Option Nat := none
deriving Repr, DecidableEq

/-- The fixed gazetteer of Dubai districts (part_000 lines 380-388), in
source order. -/
def areaGazetteer : List String :=
  ["Downtown", "Dubai Marina", "JBR", "Palm Jumeirah", "Business Bay",
   "JVC", "JVT", "Jumeirah Village", "DIFC", "International City",
   "Sports City", "Motor City", "Arabian Ranches", "Mirdif", "Barsha",
   "Al Barsha", "Dubai Hills", "MBR City", "Dubai South", "Dubailand",
   "Dubai Creek", "Zabeel", "Deira", "Bur Dubai", "Jumeirah", "Umm Suqeim",
   "Discovery Gardens", "Gardens", "Jebel Ali", "Dubai Production City",
   "IMPZ", "Dubai Silicon Oasis", "DSO", "Al Furjan", "The Greens"]

/-- First gazetteer entry that is a case-insensitive substring of the text
(part_000 lines 391-396; the loop breaks on the first hit). -/
def findArea (t : List Char) : Option String :=
  areaGazetteer.find? (fun a => listIncludes t (lcList a))

/-- Property-type keyword cascade (part_000 lines 399-407). -/
def propertyTypeOf (t : List Char) : Option String :=
  if listIncludes t "apartment".data || listIncludes t "flat".data then
    some "apartment"
  else if listIncludes t "villa".data || listIncludes t "house".data then
    some "villa"
  else if listIncludes t "townhouse".data then some "townhouse"
  else if listIncludes t "penthouse".data then some "penthouse"
  else none

/-- The bedroom-unit alternatives of the regex
`(\d+)\s*(?:bed|beds?|bedroom|bedrooms?|br|bd|bdr|bhk)` (part_000 line 410). -/
def bedroomUnitWords : List (List Char) :=
  ["bed".data, "beds".data, "bedroom".data, "bedrooms".data,
   "br".data, "bd".data, "bdr".data, "bhk".data]

/-- Try the bedroom regex at one position: a maximal digit run, optional
whitespace, then one of the unit words; returns the captured digit run. -/
def bedroomMatchAt (s : List Char) : Option (List Char) :=
  let d := s.takeWhile Char.isDigit
  if d.isEmpty then none
  else
    let r := (s.drop d.length).dropWhile jsIsSpace
    if bedroomUnitWords.any (fun w => w.isPrefixOf r) then some d else none

/-- Leftmost match of the bedroom regex (part_000 line 410). -/
def bedroomSearch (t : List Char) : Option (List Char) :=
  firstSome bedroomMatchAt t

/-- Bedrooms field: numeric match first, else the literal "studio"
(part_000 lines 410-415). -/
def bedroomsOf (t : List Char) : Option String :=
  match bedroomSearch t with
  | some d => some (String.mk d)
  | none => if listIncludes t "studio".data then some "studio" else none

/-- A price-pattern match: the whole matched substring (`match[0]`) and the
captured numeric literal (`match[1]`, digits with comma groups and an
optional decimal part). -/
structure PriceMatch where
  whole : List Char
  literal : List Char
deriving Repr, DecidableEq

/-- Lead-phrase alternatives of the max-price regex (part_000 line 419),
in alternation order. -/
def maxLeadWords : List (List Char) :=
  ["under".data, "below".data, "less than".data, "max".data,
   "maximum".data, "up to".data]

/-- Lead-phrase alternatives of the min-price regex (part_000 line 435). -/
def minLeadWords : List (List Char) :=
  ["above".data, "over".data, "more than".data, "min".data,
   "minimum".data, "at least".data]

/-- Suffix alternatives `(?:AED|dhs|dirhams|k|million|m)?`, in alternation
order. -/
def magnitudeWords : List (List Char) :=
  ["aed".data, "dhs".data, "dirhams".data, "k".data, "million".data, "m".data]

/-- Consume the `(?:,\d+)*` comma groups of the numeric literal; the fuel is
an upper bound on the input length (each step consumes at least two
characters).  Returns the consumed characters and the rest. -/
def commaGroupsF : Nat → List Char → List Char × List Char
  | 0, l => ([], l)
  | fuel + 1, l =>
    match l with
    | ',' :: c :: rest =>
      if c.isDigit then
        let d := (c :: rest).takeWhile Char.isDigit
        let r := (c :: rest).drop d.length
        let g := commaGroupsF fuel r
        (',' :: (d ++ g.1), g.2)
      else ([], l)
    | _ => ([], l)

/-- Match `\s*(?:aed)?\s*(\d+(?:,\d+)*(?:\.\d+)?)\s*(?:aed|dhs|dirhams|k|million|m)?`
directly after a lead phrase, on lowercased text.  The greedy/backtracking
behaviour of the JavaScript engine is deterministic here because the
character classes of adjacent pieces are disjoint.  Returns the consumed
characters and the captured literal. -/
def priceRestAt (s : List Char) : Option (List Char × List Char) :=
  let sp1 := s.takeWhile jsIsSpace
  let r1 := s.drop sp1.length
  let aedPart := if "aed".data.isPrefixOf r1 then "aed".data else []
  let r2 := r1.drop aedPart.length
  let sp2 := r2.takeWhile jsIsSpace
  let r3 := r2.drop sp2.length
  let d1 := r3.takeWhile Char.isDigit
  if d1.isEmpty then none
  else
    let r4 := r3.drop d1.length
    let grp := commaGroupsF r4.length r4
    let decPair : List Char × List Char :=
      match grp.2 with
      | '.' :: c :: rest =>
        if c.isDigit then
          let fd := (c :: rest).takeWhile Char.isDigit
          ('.' :: fd, (c :: rest).drop fd.length)
        else ([], grp.2)
      | _ => ([], grp.2)
    let sp3 := decPair.2.takeWhile jsIsSpace
    let r7 := decPair.2.drop sp3.length
    let suf :=
      match magnitudeWords.find? (fun w => w.isPrefixOf r7) with
      | some w => w
      | none => []
    let lit := d1 ++ grp.1 ++ decPair.1
    some (sp1 ++ aedPart ++ sp2 ++ lit ++ sp3 ++ suf, lit)

/-- Try each lead phrase, in alternation order, at one position; the first
lead whose continuation matches wins (JavaScript alternation semantics). -/
def priceLeadTryL : List (List Char) → List Char → Option PriceMatch
  | [], _ => none
  | lead :: more, s =>
    if lead.isPrefixOf s then
      match priceRestAt (s.drop lead.length) with
      | some r => some ⟨lead ++ r.1, r.2⟩
      | none => priceLeadTryL more s
    else priceLeadTryL more s

/-- Leftmost match of a price regex with the given lead phrases. -/
def priceSearch (leads : List (List Char)) (t : List Char) : Option PriceMatch :=
  firstSome (priceLeadTryL leads) t

/-- Split the captured literal (commas stripped) into its digit value and the
number of decimal places: `"1,500.25"` gives `(150025, 2)`. -/
def litParts (lit : List Char) : Nat × Nat :=
  let stripped := lit.filter (fun c => !(c = ','))
  let ip := stripped.takeWhile (fun c => !(c = '.'))
  let fp := stripped.drop (ip.length + 1)
  (digitsToNat (ip ++ fp), fp.length)

/-- Scale factor chosen by the source (part_000 lines 425-429 and 441-445):
the whole matched phrase is lowercased and tested with
`includes('million') || includes('m')`, else `includes('k')`. -/
def scaleFor (whole : List Char) : Nat :=
  if listIncludes whole "million".data || listIncludes whole "m".data then
    1000000
  else if listIncludes whole "k".data then 1000
  else 1

/-- `Math.round(n / 10^len * scale)` computed exactly for a non-negative
decimal: floor of the value plus one half. -/
def jsRoundScaled (n len scale : Nat) : Nat :=
  (2 * n * scale + 10 ^ len) / (2 * 10 ^ len)

/-- The rounded, scaled price of one regex match (part_000 lines 421-431). -/
def priceValueOf (pm : PriceMatch) : Nat :=
  jsRoundScaled (litParts pm.literal).1 (litParts pm.literal).2
    (scaleFor pm.whole)

/-- `extractSearchCriteria` on an already-lowercased character list.  Every
test in the source is case-insensitive, so the extractor only depends on the
lowercased text. -/
def extractL (t : List Char) : Criteria :=
  { area := findArea t
    propertyType := propertyTypeOf t
    bedrooms := (bedroomsOf t).map BedVal.str
    maxPrice := (priceSearch maxLeadWords t).map priceValueOf
    minPrice := (priceSearch minLeadWords t).map priceValueOf }

/-- `extractSearchCriteria` (part_000 lines 369-451). -/
def extractSearchCriteria (s : String) : Criteria := extractL (lcList s)

/-! ## Listing gateway (`fetchAds`, part_000 lines 204-286) -/

/-- A value placed in the JSON request payload. -/
inductive PayloadVal where
  | pstr (s : String)
  | pnum (n : Int)
deriving Repr, DecidableEq

/-- JavaScript `parseInt(s, 10)`: skip leading whitespace, optional sign,
then a maximal run of decimal digits; `none` models `NaN`. -/
def jsParseInt (l : List Char) : Option Int :=
  let leadingDigits : List Char → Option Nat := fun r =>
    let d := r.takeWhile Char.isDigit
    if d.isEmpty then none else some (digitsToNat d)
  let t := l.dropWhile jsIsSpace
  match t with
  | '+' :: r => (leadingDigits r).map Int.ofNat
  | '-' :: r => (leadingDigits r).map (fun n => -(Int.ofNat n))
  | r => (leadingDigits r).map Int.ofNat

/-- JavaScript truthiness of an optional string (`""` is falsy). -/
def optStrTruthy : Option String → Bool
  | some s => !(s = "")
  | none => false

/-- JavaScript truthiness of an optional number (`0` is falsy). -/
def optNatTruthy : Option Nat → Bool
  | some v => !(v = 0)
  | none => false

/-- JavaScript truthiness of the `string | number` bedrooms value. -/
def bedValTruthy : BedVal → Bool
  | .str s => !(s = "")
  | .num n => !(n = 0)

/-- Truthiness of the optional bedrooms field. -/
def optBedTruthy : Option BedVal → Bool
  | some b => bedValTruthy b
  | none => false

/-- The `area` entry of the request payload (part_000 line 214): added only
when truthy. -/
def areaSeg (o : Option String) : List (String × PayloadVal) :=
  match o with
  | some a => if a = "" then [] else [("area", PayloadVal.pstr a)]
  | none => []

/-- The `bedrooms` entry of the request payload (part_000 lines 215-229):
for a truthy string value, "studio" (case-insensitively) maps to 0 and other
strings go through `parseInt` and are omitted on NaN; a truthy number passes
through. -/
def bedsSeg (o : Option BedVal) : List (String × PayloadVal) :=
  match o with
  | some bv =>
    if bedValTruthy bv then
      match bv with
      | .str s =>
        if lcList s = "studio".data then [("bedrooms", PayloadVal.pnum 0)]
        else
          match jsParseInt s.data with
          | some n => [("bedrooms", PayloadVal.pnum n)]
          | none => []
      | .num n => [("bedrooms", PayloadVal.pnum n)]
    else []
  | none => []

/-- The `maxPrice` entry of the request payload (part_000 line 230): added
only when truthy. -/
def maxSeg (o : Option Nat) : List (String × PayloadVal) :=
  match o with
  | some v => if v = 0 then [] else [("maxPrice", PayloadVal.pnum (Int.ofNat v))]
  | none => []

/-- The request payload built by `fetchAds` (part_000 lines 213-230), as the
ordered key/value list of the JSON object.  The `propertyType` and
`minPrice` criteria fields are never read. -/
def buildPayload (c : Criteria) : List (String × PayloadVal) :=
  areaSeg c.area ++ bedsSeg c.bedrooms ++ maxSeg c.maxPrice

/-- A raw listing entry of the webhook response; `none` models an absent
field and the empty string is falsy at the defaulting sites. -/
structure RawItem where
  title : Option String := none
  price : Option String := none
  link : Option String := none
deriving Repr, DecidableEq

/-- A normalized listing (part_000 lines 275-280). -/
structure Listing where
  title : String
  price : String
  link : String
deriving Repr, DecidableEq

/-- `x || d` for an optional string under JavaScript truthiness. -/
def jsOrStr (o : Option String) (d : String) : String :=
  match o with
  | some s => if s = "" then d else s
  | none => d

/-- Normalization of one raw entry (part_000 lines 276-280): absent title
becomes "No Title", absent price becomes "Price not specified", absent link
becomes the placeholder "#". -/
def normalizeItem (it : RawItem) : Listing :=
  { title := jsOrStr it.title "No Title"
    price := jsOrStr it.price "Price not specified"
    link := jsOrStr it.link "#" }

/-- The filter `ad.link && ad.link !== '#'` (part_000 line 281). -/
def adLinkValid (ad : Listing) : Bool :=
  !(ad.link = "") && !(ad.link = "#")

/-- The three response shapes `fetchAds` recognises (part_000 lines 263-272),
plus the unrecognised case which yields an empty result. -/
inductive ResponseShape where
  | arr (items : List RawItem)
  | listingsField (items : List RawItem)
  | dataListings (items : List RawItem)
  | unrecognized
deriving Repr, DecidableEq

/-- Outcome of the HTTP POST of `fetchAds`: a transport-level throw (also
covering a `res.json()` throw), a non-2xx status (which `fetchAds` turns
into a thrown error, lines 249-253), or a 2xx response with parsed body. -/
inductive AdsResponse where
  | transportError
  | badStatus (status : Nat)
  | okBody (shape : ResponseShape)
deriving Repr, DecidableEq

/-- The listing pipeline applied to a recognised raw array (part_000 lines
275-282): normalize, drop invalid links, truncate to 5 in provider order. -/
def listingPipeline (items : List RawItem) : List Listing :=
  ((items.map normalizeItem).filter adLinkValid).take 5

/-- Dispatch over the response shape (part_000 lines 263-272). -/
def processShape : ResponseShape → List Listing
  | .arr items => listingPipeline items
  | .listingsField items => listingPipeline items
  | .dataListings items => listingPipeline items
  | .unrecognized => []

/-- Result of one `fetchAds` call: whether the webhook was called, and the
returned listings or a thrown error. -/
structure FetchRes where
  networkCalled : Bool
  outcome : Except Unit (List Listing)
deriving Repr

/-- `fetchAds` (part_000 lines 204-286) with the HTTP outcome supplied as an
argument.  If the payload is empty the function short-circuits to an empty
result without a network call (lines 233-236); a non-2xx status or a
transport failure is a thrown error. -/
def fetchAdsRun (c : Criteria) (resp : AdsResponse) : FetchRes :=
  if (buildPayload c).isEmpty then ⟨false, .ok []⟩
  else
    ⟨true,
     match resp with
     | .transportError => .error ()
     | .badStatus _ => .error ()
     | .okBody shape => .ok (processShape shape)⟩

/-! ## Preference store (`saveSearchPreferences`, part_000 lines 288-367) -/

/-- One row of the `preferences` table (schema at part_000 lines 1110-1124);
the timestamp is modelled as a Nat supplied by the caller. -/
structure PrefRow where
  area : Option String := none
  property_type : Option String := none
  bedrooms : Option String := none
  max_price : Option Nat := none
  min_price : Option Nat := none
  last_updated : Nat := 0
deriving Repr, DecidableEq

/-- `x || null` for an optional string bound parameter. -/
def strParam (o : Option String) : Option String :=
  match o with
  | some s => if s = "" then none else some s
  | none => none

/-- `x || null` for an optional numeric bound parameter (`0` becomes NULL). -/
def natParam (o : Option Nat) : Option Nat :=
  match o with
  | some v => if v = 0 then none else some v
  | none => none

/-- `bedrooms?.toString()` for the `string | number` bedrooms value. -/
def bedToStringVal : BedVal → String
  | .str s => s
  | .num n => toString n

/-- `preferences.bedrooms?.toString() || null` (part_000 line 328). -/
def bedParam (o : Option BedVal) : Option String :=
  match o with
  | some b => if bedToStringVal b = "" then none else some (bedToStringVal b)
  | none => none

/-- SQL `COALESCE(param, column)`. -/
def coalesce {α : Type} (p old : Option α) : Option α :=
  match p with
  | some v => some v
  | none => old

/-- `saveSearchPreferences` (part_000 lines 289-367) acting on the single
`preferences` row of the given user (`UNIQUE(user_id)`).  A falsy `userId`
makes the function return without touching the row (line 302).  If a row
exists, each column is updated with `COALESCE(param, column)` and the
timestamp is refreshed; otherwise a new row is inserted with the same bound
parameters (lines 314-349).  The `search_logs` append is not represented in
the returned row. -/
def saveSearchPreferences (userId : String) (row : Option PrefRow)
    (prefs : Criteria) (now : Nat) : Option PrefRow :=
  if userId = "" then row
  else
    match row with
    | some old =>
      some
        { area := coalesce (strParam prefs.area) old.area
          property_type := coalesce (strParam prefs.propertyType) old.property_type
          bedrooms := coalesce (bedParam prefs.bedrooms) old.bedrooms
          max_price := coalesce (natParam prefs.maxPrice) old.max_price
          min_price := coalesce (natParam prefs.minPrice) old.min_price
          last_updated := now }
    | none =>
      some
        { area := strParam prefs.area
          property_type := strParam prefs.propertyType
          bedrooms := bedParam prefs.bedrooms
          max_price := natParam prefs.maxPrice
          min_price := natParam prefs.minPrice
          last_updated := now }

/-! ## Detail fetch with retry (`fetchPropertyDetails`, part_000 lines 832-895) -/

/-- Outcome of one detail-fetch attempt: an HTTP response with status and
parsed body (the body modelled abstractly as a Nat), or a throw of the fetch
or of the body parse. -/
inductive DetailAttempt where
  | response (status : Nat) (body : Nat)
  | failed
deriving Repr, DecidableEq

/-- `res.ok`: status in the 2xx range. -/
def resOk (status : Nat) : Bool := 200 ≤ status && status ≤ 299

/-- Does this attempt count as a failure that triggers a retry? -/
def attemptFails : DetailAttempt → Bool
  | .response s _ => !resOk s
  | .failed => true

/-- The backoff before the next attempt (part_000 lines 866 and 881):
`min(1000 * 2^(attempt-1), 5000)` milliseconds. -/
def backoffMs (attempt : Nat) : Nat := min (1000 * 2 ^ (attempt - 1)) 5000

/-- One run of the detail fetch: the result (null on exhaustion), the waits
performed between attempts, and the number of attempts made. -/
structure DetailRun where
  result : Option Nat
  waits : List Nat
  attemptsMade : Nat
deriving Repr, DecidableEq

/-- The retry loop of `fetchPropertyDetails` (part_000 lines 843-886) with
`MAX_ATTEMPTS = 3`; `attempt` is the 1-based counter.  A 200 returns the
parsed body immediately (line 854); any other 2xx also returns the parsed
body (line 873); a non-2xx or a throw waits `backoffMs attempt` when another
attempt remains and retries. -/
def detailLoop : Nat → List DetailAttempt → DetailRun
  | _, [] => ⟨none, [], 0⟩
  | attempt, o :: rest =>
    match o with
    | .response status body =>
      if status = 200 then ⟨some body, [], 1⟩
      else if resOk status then ⟨some body, [], 1⟩
      else
        if attempt < 3 then
          let r := detailLoop (attempt + 1) rest
          ⟨r.result, backoffMs attempt :: r.waits, r.attemptsMade + 1⟩
        else ⟨none, [], 1⟩
    | .failed =>
      if attempt < 3 then
        let r := detailLoop (attempt + 1) rest
        ⟨r.result, backoffMs attempt :: r.waits, r.attemptsMade + 1⟩
      else ⟨none, [], 1⟩

/-- `fetchPropertyDetails` (part_000 lines 832-895): run the retry loop; when
every attempt fails the final throw is absorbed by the outer catch and the
function resolves to `none` (lines 888-894). -/
def fetchPropertyDetails (outcomes : List DetailAttempt) : DetailRun :=
  detailLoop 1 outcomes

/-! ## Dialogue pattern tests (part_000 lines 526-528 and 666-667)

Each regex is an unanchored, case-insensitive test; the scanners below run on
the trimmed, lowercased text.  The pieces of each regex have pairwise
disjoint character classes, so greedy matching is deterministic and a plain
prefix scan is an exact model. -/

/-- Test `verb\s+object` for verb/object alternation lists: models regexes of
the form `(?:v1|v2)\s+(?:o1|o2)`. -/
def verbObjectTest (verbs objects : List (List Char)) (t : List Char) : Bool :=
  anySuffix
    (fun s =>
      verbs.any (fun v =>
        v.isPrefixOf s &&
        (let r := s.drop v.length
         !(r.takeWhile jsIsSpace).isEmpty &&
         objects.any (fun o => o.isPrefixOf (r.dropWhile jsIsSpace)))))
    t

/-- `/(?:show|send|get|give)\s+(?:more|next)/i` (part_000 line 526). -/
def showMoreTest (t : List Char) : Bool :=
  verbObjectTest ["show".data, "send".data, "get".data, "give".data]
    ["more".data, "next".data] t

/-- `/(?:narrow|filter|tighten|refine|specific|less)/i` (part_000 line 527). -/
def narrowTest (t : List Char) : Bool :=
  listIncludes t "narrow".data || listIncludes t "filter".data ||
  listIncludes t "tighten".data || listIncludes t "refine".data ||
  listIncludes t "specific".data || listIncludes t "less".data

/-- `/(?:save|store|remember|keep)\s+(?:this|these|search|criteria)/i`
(part_000 line 528). -/
def saveTest (t : List Char) : Bool :=
  verbObjectTest ["save".data, "store".data, "remember".data, "keep".data]
    ["this".data, "these".data, "search".data, "criteria".data] t

/-- `/(?:show|get|what|my)\s+(?:previous|saved|last|recent)?\s*(?:search|criteria|preferences)/i`
(part_000 line 666).  After the mandatory whitespace, either a final word
follows directly (optional group skipped) or one of the middle words
followed by optional whitespace and a final word. -/
def savedSearchTest (t : List Char) : Bool :=
  anySuffix
    (fun s =>
      ["show".data, "get".data, "what".data, "my".data].any (fun v =>
        v.isPrefixOf s &&
        (let r := s.drop v.length
         !(r.takeWhile jsIsSpace).isEmpty &&
         (let r2 := r.dropWhile jsIsSpace
          let finals := ["search".data, "criteria".data, "preferences".data]
          finals.any (fun f => f.isPrefixOf r2) ||
          ["previous".data, "saved".data, "last".data, "recent".data].any
            (fun mw =>
              mw.isPrefixOf r2 &&
              finals.any (fun f =>
                f.isPrefixOf ((r2.drop mw.length).dropWhile jsIsSpace)))))))
    t

/-- `/(?:new|latest|recent|updated)\s+(?:listings|properties|options)/i`
(part_000 line 667). -/
def newListingsTest (t : List Char) : Bool :=
  verbObjectTest
    ["new".data, "latest".data, "recent".data, "updated".data]
    ["listings".data, "properties".data, "options".data] t

/-! ## The `SEARCH_LISTINGS` handler (part_000 lines 513-796) -/

/-- The per-conversation state bag fields the handler reads and writes. -/
structure ConvState where
  awaitingPropertyCriteria : Bool
  showingListingResults : Bool
  lastSearchCriteria : Option Criteria
deriving Repr, DecidableEq

/-- `{}`: the empty criteria object used for `lastSearchCriteria || {}`. -/
def emptyCriteria : Criteria := {}

/-- Result of the saved-preferences SELECT (part_000 lines 671-675): the
query may throw, return no rows (also covering a missing `sql` adapter,
where optional chaining yields `undefined`), or return the user's row. -/
inductive PrefLookupRes where
  | lookupFailed
  | found (row : Option PrefRow)
deriving Repr, DecidableEq

/-- The external outcomes one handler turn can consume. -/
structure TurnEnv where
  adsResp : AdsResponse
  prefsLookup : PrefLookupRes
deriving Repr

/-- The criteria object rebuilt from a stored row (part_000 lines 679-685):
`area`, `property_type`, `bedrooms` pass through; the prices are guarded by
truthiness (`0` and NULL both become undefined). -/
def criteriaFromDb (r : PrefRow) : Criteria :=
  { area := r.area
    propertyType := r.property_type
    bedrooms := r.bedrooms.map BedVal.str
    maxPrice := r.max_price.bind (fun v => if v = 0 then none else some v)
    minPrice := r.min_price.bind (fun v => if v = 0 then none else some v) }

/-- The "enough detail" heuristic of the fallback branch (part_000 lines
735-738), with JavaScript truthiness on each field. -/
def fallbackEnough (c : Criteria) : Bool :=
  (optStrTruthy c.area || optStrTruthy c.propertyType || optBedTruthy c.bedrooms) &&
  (optNatTruthy c.maxPrice || optNatTruthy c.minPrice || optStrTruthy c.area)

/-- The user-visible reply of one turn, by message template. -/
inductive ReplyKind where
  | moreResults (ads : List Listing)
  | noMoreListings
  | moreApology
  | refinePrompt
  | saveConfirmation
  | resultsList (ads : List Listing)
  | noMatch
  | searchApology
  | savedPrefsResults (ads : List Listing)
  | savedPrefsNoMatch
  | askCriteriaNoSaved
  | savedPrefsApology
  | criteriaPrompt
deriving Repr, DecidableEq

/-- Persistence side effects of one turn. -/
inductive Effect where
  | savedPreferences (c : Criteria)
  | logCountUpdate (n : Nat)
deriving Repr, DecidableEq

/-- Result of one handler turn: the mutated state bag, the reply sent through
the callback, and the persistence effects issued. -/
structure HandlerOut where
  state : ConvState
  reply : ReplyKind
  effects : List Effect
deriving Repr

/-- One turn of `searchListingsAction.handler` (part_000 lines 513-796).
The inbound text is trimmed (line 520) and every test is case-insensitive,
so the branches run on the trimmed lowercased text.  Branch order follows
the source: the three ShowingResults patterns (lines 525-613), the
AwaitingCriteria branch (615-664), the saved-search branch (666-732), the
fallback extraction (734-777), and the default criteria prompt (779-795).
A thrown `fetchAds` in the fallback branch falls through to the default
prompt (lines 773-776). -/
def handlerStep (st : ConvState) (text : String) (env : TurnEnv) : HandlerOut :=
  let t := jsTrim (lcList text)
  if st.showingListingResults && showMoreTest t then
    match (fetchAdsRun (st.lastSearchCriteria.getD emptyCriteria) env.adsResp).outcome with
    | .ok ads =>
      { state := st
        reply := if ads.isEmpty then .noMoreListings else .moreResults ads
        effects := [] }
    | .error _ => { state := st, reply := .moreApology, effects := [] }
  else if st.showingListingResults && narrowTest t then
    { state := { st with showingListingResults := false
                         awaitingPropertyCriteria := true }
      reply := .refinePrompt
      effects := [] }
  else if st.showingListingResults && saveTest t then
    { state := st
      reply := .saveConfirmation
      effects := [.savedPreferences (st.lastSearchCriteria.getD emptyCriteria)] }
  else if st.awaitingPropertyCriteria then
    match (fetchAdsRun (extractL t) env.adsResp).outcome with
    | .ok ads =>
      { state := { awaitingPropertyCriteria := false
                   showingListingResults := true
                   lastSearchCriteria := some (extractL t) }
        reply := if ads.isEmpty then .noMatch else .resultsList ads
        effects := [.savedPreferences (extractL t), .logCountUpdate ads.length] }
    | .error _ =>
      { state := { st with awaitingPropertyCriteria := false
                           lastSearchCriteria := some (extractL t) }
        reply := .searchApology
        effects := [] }
  else if savedSearchTest t || newListingsTest t then
    match env.prefsLookup with
    | .lookupFailed =>
      { state := { st with awaitingPropertyCriteria := true }
        reply := .savedPrefsApology
        effects := [] }
    | .found none =>
      { state := { st with awaitingPropertyCriteria := true }
        reply := .askCriteriaNoSaved
        effects := [] }
    | .found (some row) =>
      match (fetchAdsRun (criteriaFromDb row) env.adsResp).outcome with
      | .ok ads =>
        { state := { st with lastSearchCriteria := some (criteriaFromDb row)
                             showingListingResults := true }
          reply := if ads.isEmpty then .savedPrefsNoMatch
                   else .savedPrefsResults ads
          effects := [] }
      | .error _ =>
        { state := { st with lastSearchCriteria := some (criteriaFromDb row)
                             awaitingPropertyCriteria := true }
          reply := .savedPrefsApology
          effects := [] }
  else if fallbackEnough (extractL t) then
    match (fetchAdsRun (extractL t) env.adsResp).outcome with
    | .ok ads =>
      { state := { st with lastSearchCriteria := some (extractL t)
                           showingListingResults := true }
        reply := if ads.isEmpty then .noMatch else .resultsList ads
        effects := [.savedPreferences (extractL t), .logCountUpdate ads.length] }
    | .error _ =>
      { state := { st with lastSearchCriteria := some (extractL t)
                           awaitingPropertyCriteria := true }
        reply := .criteriaPrompt
        effects := [] }
  else
    { state := { st with awaitingPropertyCriteria := true }
      reply := .criteriaPrompt
      effects := [] }

/-! ## Substring lemmas -/

/-- `anySuffix p` holds exactly when some suffix of the text satisfies `p`. -/
theorem anySuffix_iff (p : List Char → Bool) :
    ∀ t, anySuffix p t = true ↔ ∃ s, s <:+ t ∧ p s = true := by
  intro t
  induction t with
  | nil =>
    simp only [anySuffix, List.suffix_nil]
    constructor
    · intro h; exact ⟨[], rfl, h⟩
    · rintro ⟨s, rfl, hs⟩; exact hs
  | cons c r ih =>
    simp only [anySuffix, Bool.or_eq_true, ih]
    constructor
    · rintro (h | ⟨s, hsuf, hp⟩)
      · exact ⟨c :: r, List.suffix_refl _, h⟩
      · exact ⟨s, hsuf.trans (List.suffix_cons c r), hp⟩
    · rintro ⟨s, hsuf, hp⟩
      rcases List.suffix_cons_iff.mp hsuf with rfl | hsuf
      · exact Or.inl hp
      · exact Or.inr ⟨s, hsuf, hp⟩

/-- `listIncludes` decides the sublist-as-infix relation. -/
theorem listIncludes_iff (t n : List Char) :
    listIncludes t n = true ↔ n <:+: t := by
  unfold listIncludes
  rw [anySuffix_iff]
  constructor
  · rintro ⟨s, hsuf, hpre⟩
    exact List.infix_iff_prefix_suffix.mpr
      ⟨s, List.isPrefixOf_iff_prefix.mp hpre, hsuf⟩
  · intro h
    rcases List.infix_iff_prefix_suffix.mp h with ⟨s, hpre, hsuf⟩
    exact ⟨s, hsuf, List.isPrefixOf_iff_prefix.mpr hpre⟩

/-- A text that includes a word also includes every infix of that word. -/
theorem listIncludes_mono {t n m : List Char} (hsub : m <:+: n)
    (h : listIncludes t n = true) : listIncludes t m = true :=
  (listIncludes_iff t m).mpr (hsub.trans ((listIncludes_iff t n).mp h))

/-! ## Claims -/

/-- C10: for every input text, `extractSearchCriteria` never returns
propertyType "townhouse" or "penthouse": both keywords contain "house", so
the earlier villa/house check fires first and the output range is limited to
apartment, villa, or absent. -/
theorem extract_propertyType_range (s : String) :
    (extractSearchCriteria s).propertyType ≠ some "townhouse" ∧
    (extractSearchCriteria s).propertyType ≠ some "penthouse" := by
  have hpt : (extractSearchCriteria s).propertyType = propertyTypeOf (lcList s) := rfl
  rw [hpt]
  unfold propertyTypeOf
  split_ifs with h1 h2 h3 h4
  · exact ⟨by simp, by simp⟩
  · exact ⟨by simp, by simp⟩
  · exfalso
    have hhouse : listIncludes (lcList s) "house".data = true :=
      listIncludes_mono ⟨"town".data, [], by decide⟩ h3
    simp [hhouse] at h2
  · exfalso
    have hhouse : listIncludes (lcList s) "house".data = true :=
      listIncludes_mono ⟨"pent".data, [], by decide⟩ h4
    simp [hhouse] at h2
  · exact ⟨by simp, by simp⟩

/-- C2 counterexample: "max 2k" carries the magnitude suffix "k", but the
scale test `includes('m')` also sees the letter m of the lead word "max", so
the value is scaled by 1,000,000 instead of the 1,000 the claim requires
(2000 would be the claimed result). -/
theorem extract_maxPrice_k_suffix_counterexample :
    (extractSearchCriteria "max 2k").maxPrice = some 2000000 ∧
    (extractSearchCriteria "max 2k").maxPrice ≠ some 2000 := by
  refine ⟨rfl, ?_⟩
  intro h
  rw [show (extractSearchCriteria "max 2k").maxPrice = some 2000000 from rfl] at h
  simp at h

/-- C2 amended: the numeric literal has commas stripped and is rounded after
scaling, but the scaling decision keys off the entire matched phrase: the
value is scaled by 1,000,000 whenever the phrase contains the letter "m"
anywhere (which covers the suffixes "million" and "m" but also the lead
words "max"/"maximum" and the currency word "dirhams"), and by 1,000 when it
contains "k" but no "m".  In particular "under 1.5 million" and "under 1.5M"
both yield 1500000, as does "max 1.5k", while "under 2k" yields 2000. -/
theorem extract_maxPrice_scaling_whole_phrase :
    (∀ (t : List Char) (pm : PriceMatch),
        priceSearch maxLeadWords t = some pm →
        (extractL t).maxPrice =
          some (jsRoundScaled (litParts pm.literal).1 (litParts pm.literal).2
            (if listIncludes pm.whole "m".data then 1000000
             else if listIncludes pm.whole "k".data then 1000 else 1))) ∧
    (extractSearchCriteria "under 1.5 million").maxPrice = some 1500000 ∧
    (extractSearchCriteria "under 1.5M").maxPrice = some 1500000 ∧
    (extractSearchCriteria "max 1.5k").maxPrice = some 1500000 ∧
    (extractSearchCriteria "under 2k").maxPrice = some 2000 := by
  refine ⟨?_, rfl, rfl, rfl, rfl⟩
  intro t pm h
  have hmax : (extractL t).maxPrice = (priceSearch maxLeadWords t).map priceValueOf := rfl
  rw [hmax, h, Option.map_some']
  congr 1
  unfold priceValueOf scaleFor
  congr 1
  by_cases hm : listIncludes pm.whole "m".data = true
  · simp [hm]
  · have hmzero : listIncludes pm.whole "m".data = false :=
      Bool.not_eq_true _ |>.mp hm
    have hmil : listIncludes pm.whole "million".data = false := by
      by_contra hc
      have hmil1 : listIncludes pm.whole "million".data = true :=
        Bool.not_eq_false _ |>.mp hc
      have hm1 : listIncludes pm.whole "m".data = true :=
        listIncludes_mono ⟨[], "illion".data, by decide⟩ hmil1
      rw [hm1] at hmzero
      exact Bool.true_eq_false.mp hmzero
    simp [hmzero, hmil]

/-- Witness for the amended C2 theorem: instantiating the general statement
at the concrete text "max 2k" and its concrete match. -/
theorem extract_maxPrice_scaling_whole_phrase_witness :
    (extractL (lcList "max 2k")).maxPrice = some 2000000 := by
  have h := extract_maxPrice_scaling_whole_phrase.1 (lcList "max 2k")
    ⟨"max 2k".data, "2".data⟩ (by decide)
  exact h

/-- C1 counterexample: starting from the initial state (both flags false), a
reachable three-message run ends with both flags true.  Turn 1 ("find
property") takes the default branch and sets AwaitingCriteria; turn 2
("2 bed in JVC under 500k", successful fetch) clears it and sets
ShowingResults; turn 3 ("hello") matches none of the ShowingResults
patterns, falls to the default branch, and sets awaitingPropertyCriteria
back to true without clearing showingListingResults. -/
theorem searchHandler_flag_invariant_counterexample :
    (handlerStep
      (handlerStep
        (handlerStep ⟨false, false, none⟩ "find property"
          ⟨.transportError, .lookupFailed⟩).state
        "2 bed in JVC under 500k"
        ⟨.okBody (.arr [⟨some "T", some "P", some "x"⟩]), .lookupFailed⟩).state
      "hello" ⟨.transportError, .lookupFailed⟩).state =
    ⟨true, true,
     some { area := some "JVC", bedrooms := some (BedVal.str "2"),
            maxPrice := some 500000 }⟩ := by
  rfl

/-- C1 amended: the at-most-one-flag invariant is preserved by every
transition taken from a state in which showingListingResults is false; from
a ShowingResults state the show-more/narrow/save transitions also preserve
it, but a message that reaches the saved-preferences branch (row absent or
lookup/fetch error) or the default prompt branch sets
awaitingPropertyCriteria to true without clearing showingListingResults, so
the handler can produce a state with both flags true. -/
theorem searchHandler_flag_invariant_from_not_showing
    (st : ConvState) (text : String) (env : TurnEnv)
    (h : st.showingListingResults = false) :
    (handlerStep st text env).state.awaitingPropertyCriteria = false ∨
    (handlerStep st text env).state.showingListingResults = false := by
  unfold handlerStep
  simp only [h, Bool.false_and, Bool.false_eq_true, if_false]
  by_cases hA : st.awaitingPropertyCriteria = true
  · simp only [hA, if_true]
    split
    · exact Or.inl rfl
    · exact Or.inl rfl
  · have hA0 : st.awaitingPropertyCriteria = false := by
      cases hb : st.awaitingPropertyCriteria
      · rfl
      · exact absurd hb hA
    simp only [hA0, Bool.false_eq_true, if_false]
    split
    · split
      · exact Or.inr rfl
      · exact Or.inr rfl
      · split
        · exact Or.inl rfl
        · exact Or.inr rfl
    · split
      · split
        · exact Or.inl rfl
        · exact Or.inr rfl
      · exact Or.inr rfl

/-- Witness for the amended C1 theorem at a concrete idle state and message. -/
theorem searchHandler_flag_invariant_from_not_showing_witness :
    (handlerStep ⟨false, false, none⟩ "hello"
      ⟨.transportError, .lookupFailed⟩).state.awaitingPropertyCriteria = false ∨
    (handlerStep ⟨false, false, none⟩ "hello"
      ⟨.transportError, .lookupFailed⟩).state.showingListingResults = false :=
  searchHandler_flag_invariant_from_not_showing ⟨false, false, none⟩ "hello"
    ⟨.transportError, .lookupFailed⟩ rfl

/-- C3 counterexample: in the fallback-extraction branch a thrown fetch does
leave showingListingResults unset, but the handler then falls through to the
default branch, which sets awaitingPropertyCriteria from false to true — a
state mutation applied after the fetch failure, contradicting "without any
further state mutation beyond changes already applied before the fetch". -/
theorem fallback_fetch_failure_mutates_state_counterexample :
    handlerStep ⟨false, false, none⟩ "2 bed in JVC under 500k"
      ⟨.transportError, .lookupFailed⟩ =
    ⟨⟨true, false,
      some { area := some "JVC", bedrooms := some (BedVal.str "2"),
             maxPrice := some 500000 }⟩,
     .criteriaPrompt, []⟩ := by
  rfl

/-- C3 amended: if the listing fetch throws, neither branch sets
showingListingResults and the user receives an apology (AwaitingCriteria
branch) or the criteria prompt (fallback branch) instead of results; the
AwaitingCriteria branch performs no state mutation beyond the changes
already applied before the fetch (awaiting cleared, last criteria stored),
while the fallback branch falls through to the default branch, which
additionally sets awaitingPropertyCriteria to true. -/
theorem fetch_failure_branches_behavior
    (st : ConvState) (text : String) (env : TurnEnv)
    (h1 : (st.showingListingResults && showMoreTest (jsTrim (lcList text))) = false)
    (h2 : (st.showingListingResults && narrowTest (jsTrim (lcList text))) = false)
    (h3 : (st.showingListingResults && saveTest (jsTrim (lcList text))) = false)
    (hfail : (fetchAdsRun (extractL (jsTrim (lcList text))) env.adsResp).outcome =
      .error ()) :
    (st.awaitingPropertyCriteria = true →
      handlerStep st text env =
        ⟨⟨false, st.showingListingResults, some (extractL (jsTrim (lcList text)))⟩,
         .searchApology, []⟩) ∧
    (st.awaitingPropertyCriteria = false →
      (savedSearchTest (jsTrim (lcList text)) ||
        newListingsTest (jsTrim (lcList text))) = false →
      fallbackEnough (extractL (jsTrim (lcList text))) = true →
      handlerStep st text env =
        ⟨⟨true, st.showingListingResults, some (extractL (jsTrim (lcList text)))⟩,
         .criteriaPrompt, []⟩) := by
  constructor
  · intro hA
    unfold handlerStep
    simp only [h1, h2, h3, hA, Bool.false_eq_true, if_false, if_true, hfail]
  · intro hA hs hfb
    unfold handlerStep
    simp only [h1, h2, h3, hA, hs, hfb, Bool.false_eq_true, if_false, if_true,
      hfail]

/-- Witness for the amended C3 theorem: both branches at concrete inputs with
a transport failure. -/
theorem fetch_failure_branches_behavior_witness :
    (handlerStep ⟨true, false, none⟩ "2 bed in JVC under 500k"
        ⟨.transportError, .lookupFailed⟩ =
      ⟨⟨false, false,
        some { area := some "JVC", bedrooms := some (BedVal.str "2"),
               maxPrice := some 500000 }⟩,
       .searchApology, []⟩) ∧
    (handlerStep ⟨false, false, none⟩ "2 bed in JVC under 500k"
        ⟨.transportError, .lookupFailed⟩ =
      ⟨⟨true, false,
        some { area := some "JVC", bedrooms := some (BedVal.str "2"),
               maxPrice := some 500000 }⟩,
       .criteriaPrompt, []⟩) := by
  constructor
  · exact (fetch_failure_branches_behavior ⟨true, false, none⟩
      "2 bed in JVC under 500k" ⟨.transportError, .lookupFailed⟩
      rfl rfl rfl rfl).1 rfl
  · exact (fetch_failure_branches_behavior ⟨false, false, none⟩
      "2 bed in JVC under 500k" ⟨.transportError, .lookupFailed⟩
      rfl rfl rfl rfl).2 rfl (by decide) rfl

/-- C7: in a ShowingResults state, a message matching the save pattern (and
no earlier pattern) persists the last stored criteria and leaves the state
bag completely unchanged — showingListingResults stays true — while a
message matching the narrow/refine pattern (and not the show-more pattern)
clears showingListingResults and sets awaitingPropertyCriteria. -/
theorem showingResults_save_and_narrow_transitions
    (st : ConvState) (text : String) (env : TurnEnv)
    (hshow : st.showingListingResults = true)
    (hmore : showMoreTest (jsTrim (lcList text)) = false) :
    (narrowTest (jsTrim (lcList text)) = false →
      saveTest (jsTrim (lcList text)) = true →
      handlerStep st text env =
        ⟨st, .saveConfirmation,
         [.savedPreferences (st.lastSearchCriteria.getD emptyCriteria)]⟩) ∧
    (narrowTest (jsTrim (lcList text)) = true →
      handlerStep st text env =
        ⟨⟨true, false, st.lastSearchCriteria⟩, .refinePrompt, []⟩) := by
  constructor
  · intro hnar hsave
    unfold handlerStep
    simp only [hshow, hmore, hnar, hsave, Bool.true_and, Bool.false_eq_true,
      if_false, if_true]
  · intro hnar
    unfold handlerStep
    simp only [hshow, hmore, hnar, Bool.true_and, Bool.false_eq_true,
      if_false, if_true]

/-- Witness for C7 at a concrete ShowingResults state: "save these criteria"
leaves the state unchanged and persists the criteria; "narrow the search"
flips the flags. -/
theorem showingResults_save_and_narrow_transitions_witness :
    (handlerStep ⟨false, true, some { area := some "JVC" }⟩
        "save these criteria" ⟨.transportError, .lookupFailed⟩ =
      ⟨⟨false, true, some { area := some "JVC" }⟩, .saveConfirmation,
       [.savedPreferences { area := some "JVC" }]⟩) ∧
    (handlerStep ⟨false, true, some { area := some "JVC" }⟩
        "narrow the search" ⟨.transportError, .lookupFailed⟩ =
      ⟨⟨true, false, some { area := some "JVC" }⟩, .refinePrompt, []⟩) := by
  constructor
  · exact (showingResults_save_and_narrow_transitions
      ⟨false, true, some { area := some "JVC" }⟩ "save these criteria"
      ⟨.transportError, .lookupFailed⟩ rfl (by decide)).1 (by decide) (by decide)
  · exact (showingResults_save_and_narrow_transitions
      ⟨false, true, some { area := some "JVC" }⟩ "narrow the search"
      ⟨.transportError, .lookupFailed⟩ rfl (by decide)).2 (by decide)

/-! ## Retry-loop lemmas for the detail fetch -/

/-- An attempt answered with HTTP 200 returns its body immediately. -/
theorem detailLoop_success200 (a b : Nat) (os : List DetailAttempt) :
    detailLoop a (.response 200 b :: os) = ⟨some b, [], 1⟩ := by
  simp [detailLoop]

/-- A failing attempt below the ceiling waits `backoffMs a` and retries. -/
theorem detailLoop_fail_step (a : Nat) (o : DetailAttempt)
    (os : List DetailAttempt) (hf : attemptFails o = true) (ha : a < 3) :
    detailLoop a (o :: os) =
      ⟨(detailLoop (a + 1) os).result,
       backoffMs a :: (detailLoop (a + 1) os).waits,
       (detailLoop (a + 1) os).attemptsMade + 1⟩ := by
  cases o with
  | failed => simp [detailLoop, ha]
  | response s b =>
    have hok : resOk s = false := by simpa [attemptFails] using hf
    have hs : ¬(s = 200) := by
      intro h; subst h; simp [resOk] at hok
    simp [detailLoop, hs, hok, ha]

/-- A failing third attempt ends the loop with no result and no wait. -/
theorem detailLoop_fail_last (o : DetailAttempt) (os : List DetailAttempt)
    (hf : attemptFails o = true) :
    detailLoop 3 (o :: os) = ⟨none, [], 1⟩ := by
  cases o with
  | failed => simp [detailLoop]
  | response s b =>
    have hok : resOk s = false := by simpa [attemptFails] using hf
    have hs : ¬(s = 200) := by
      intro h; subst h; simp [resOk] at hok
    simp [detailLoop, hs, hok]

/-- From the third attempt on, at most one more attempt is made. -/
theorem detailLoop_att_three (os : List DetailAttempt) :
    (detailLoop 3 os).attemptsMade ≤ 1 := by
  cases os with
  | nil => simp [detailLoop]
  | cons o rest =>
    cases o with
    | failed => simp [detailLoop]
    | response s b =>
      by_cases h200 : s = 200
      · subst h200; simp [detailLoop]
      · by_cases hok : resOk s = true
        · simp [detailLoop, h200, hok]
        · have hok0 : resOk s = false := by
            cases h : resOk s
            · rfl
            · exact absurd h hok
          simp [detailLoop, h200, hok0]

/-- From the second attempt on, at most two more attempts are made. -/
theorem detailLoop_att_two (os : List DetailAttempt) :
    (detailLoop 2 os).attemptsMade ≤ 2 := by
  cases os with
  | nil => simp [detailLoop]
  | cons o rest =>
    cases o with
    | failed =>
      have := detailLoop_att_three rest
      simp [detailLoop]
      omega
    | response s b =>
      by_cases h200 : s = 200
      · subst h200; simp [detailLoop]
      · by_cases hok : resOk s = true
        · simp [detailLoop, h200, hok]
        · have hok0 : resOk s = false := by
            cases h : resOk s
            · rfl
            · exact absurd h hok
          have := detailLoop_att_three rest
          simp [detailLoop, h200, hok0]
          omega

/-- The whole loop makes at most three attempts. -/
theorem detailLoop_att_one (os : List DetailAttempt) :
    (detailLoop 1 os).attemptsMade ≤ 3 := by
  cases os with
  | nil => simp [detailLoop]
  | cons o rest =>
    cases o with
    | failed =>
      have := detailLoop_att_two rest
      simp [detailLoop]
      omega
    | response s b =>
      by_cases h200 : s = 200
      · subst h200; simp [detailLoop]
      · by_cases hok : resOk s = true
        · simp [detailLoop, h200, hok]
        · have hok0 : resOk s = false := by
            cases h : resOk s
            · rfl
            · exact absurd h hok
          have := detailLoop_att_two rest
          simp [detailLoop, h200, hok0]
          omega

/-- C5: the detail fetch makes at most 3 attempts; a 200 on any attempt
returns the parsed body; every non-2xx status or transport failure retries
after waits of 1000ms then 2000ms (exponential base 1000ms doubling, capped
at 5000ms, no wait after the final attempt); after three failures the call
resolves to no detail instead of propagating an exception. -/
theorem fetchPropertyDetails_retry_policy (o1 o2 o3 : DetailAttempt)
    (rest : List DetailAttempt) (b : Nat) :
    (fetchPropertyDetails (o1 :: o2 :: o3 :: rest)).attemptsMade ≤ 3 ∧
    (o1 = .response 200 b →
      fetchPropertyDetails (o1 :: o2 :: o3 :: rest) = ⟨some b, [], 1⟩) ∧
    (attemptFails o1 = true → o2 = .response 200 b →
      fetchPropertyDetails (o1 :: o2 :: o3 :: rest) = ⟨some b, [1000], 2⟩) ∧
    (attemptFails o1 = true → attemptFails o2 = true → o3 = .response 200 b →
      fetchPropertyDetails (o1 :: o2 :: o3 :: rest) =
        ⟨some b, [1000, 2000], 3⟩) ∧
    (attemptFails o1 = true → attemptFails o2 = true → attemptFails o3 = true →
      fetchPropertyDetails (o1 :: o2 :: o3 :: rest) =
        ⟨none, [1000, 2000], 3⟩) ∧
    backoffMs 1 = 1000 ∧ backoffMs 2 = 2000 ∧ (∀ a, backoffMs a ≤ 5000) := by
  refine ⟨detailLoop_att_one _, ?_, ?_, ?_, ?_, by decide, by decide,
    fun a => Nat.min_le_right _ _⟩
  · intro h
    subst h
    exact detailLoop_success200 1 b (o2 :: o3 :: rest)
  · intro hf1 h2
    subst h2
    show detailLoop 1 _ = _
    rw [detailLoop_fail_step 1 o1 _ hf1 (by decide),
      detailLoop_success200 2 b (o3 :: rest)]
    rfl
  · intro hf1 hf2 h3
    subst h3
    show detailLoop 1 _ = _
    rw [detailLoop_fail_step 1 o1 _ hf1 (by decide),
      detailLoop_fail_step 2 o2 _ hf2 (by decide),
      detailLoop_success200 3 b rest]
    rfl
  · intro hf1 hf2 hf3
    show detailLoop 1 _ = _
    rw [detailLoop_fail_step 1 o1 _ hf1 (by decide),
      detailLoop_fail_step 2 o2 _ hf2 (by decide),
      detailLoop_fail_last o3 rest hf3]
    rfl

/-- Witness for C5: three failures give no detail with waits 1000ms and
2000ms; an immediate 200 returns the body with no wait. -/
theorem fetchPropertyDetails_retry_policy_witness :
    fetchPropertyDetails [.failed, .failed, .failed] =
      ⟨none, [1000, 2000], 3⟩ ∧
    fetchPropertyDetails [.response 200 7, .failed, .failed] =
      ⟨some 7, [], 1⟩ := by
  constructor
  · exact (fetchPropertyDetails_retry_policy .failed .failed .failed [] 0).2.2.2.2.1
      rfl rfl rfl
  · exact (fetchPropertyDetails_retry_policy (.response 200 7) .failed .failed
      [] 7).2.1 rfl

/-- C6: on an array-shaped 2xx response, `fetchAds` returns the normalized,
link-filtered, order-preserving prefix of at most 5 listings; no listing with
a placeholder (or empty) link ever appears, absent titles and prices default
to their sentinels, and entries with an absent or placeholder link are
dropped by the filter. -/
theorem fetchAds_normalize_filter_cap (c : Criteria) (items : List RawItem)
    (hpay : (buildPayload c).isEmpty = false) :
    (fetchAdsRun c (.okBody (.arr items))).outcome =
      .ok (listingPipeline items) ∧
    (listingPipeline items).length ≤ 5 ∧
    (∀ ad ∈ listingPipeline items, ad.link ≠ "#" ∧ ad.link ≠ "") ∧
    (listingPipeline items).Sublist (items.map normalizeItem) ∧
    (∀ it : RawItem, it.title = none → (normalizeItem it).title = "No Title") ∧
    (∀ it : RawItem, it.price = none →
      (normalizeItem it).price = "Price not specified") ∧
    (∀ it : RawItem,
      it.link = none ∨ it.link = some "#" ∨ it.link = some "" →
      adLinkValid (normalizeItem it) = false) := by
  refine ⟨?_, ?_, ?_, ?_, ?_, ?_, ?_⟩
  · simp [fetchAdsRun, hpay, processShape]
  · unfold listingPipeline
    calc (((items.map normalizeItem).filter adLinkValid).take 5).length
        = min 5 ((items.map normalizeItem).filter adLinkValid).length :=
          List.length_take 5 _
      _ ≤ 5 := Nat.min_le_left _ _
  · intro ad had
    have h1 : ad ∈ (items.map normalizeItem).filter adLinkValid :=
      (List.take_sublist 5 _).subset had
    have h2 := (List.mem_filter.mp h1).2
    simp only [adLinkValid, Bool.and_eq_true, Bool.not_eq_true',
      decide_eq_false_iff_not] at h2
    exact ⟨h2.2, h2.1⟩
  · exact (List.take_sublist 5 _).trans (List.filter_sublist _)
  · intro it h; simp [normalizeItem, jsOrStr, h]
  · intro it h; simp [normalizeItem, jsOrStr, h]
  · rintro it (h | h | h) <;> simp [normalizeItem, jsOrStr, adLinkValid, h]

/-- Witness for C6: a provider response with eight entries (including absent
titles/prices, an absent link, and a placeholder link) yields exactly the
first five valid normalized listings. -/
theorem fetchAds_normalize_filter_cap_witness :
    (fetchAdsRun { area := some "JVC" }
        (.okBody (.arr
          [⟨none, none, some "a"⟩, ⟨some "t", some "p", none⟩,
           ⟨some "t", some "p", some "#"⟩, ⟨some "1", none, some "b"⟩,
           ⟨none, some "2", some "c"⟩, ⟨some "3", some "3", some "d"⟩,
           ⟨some "4", some "4", some "e"⟩,
           ⟨some "5", some "5", some "f"⟩]))).outcome =
      .ok [⟨"No Title", "Price not specified", "a"⟩,
           ⟨"1", "Price not specified", "b"⟩, ⟨"No Title", "2", "c"⟩,
           ⟨"3", "3", "d"⟩, ⟨"4", "4", "e"⟩] := by
  exact (fetchAds_normalize_filter_cap { area := some "JVC" }
    [⟨none, none, some "a"⟩, ⟨some "t", some "p", none⟩,
     ⟨some "t", some "p", some "#"⟩, ⟨some "1", none, some "b"⟩,
     ⟨none, some "2", some "c"⟩, ⟨some "3", some "3", some "d"⟩,
     ⟨some "4", some "4", some "e"⟩, ⟨some "5", some "5", some "f"⟩]
    (by decide)).1

/-- C8: a criteria object whose request payload is empty makes `fetchAds`
return an empty listing sequence without any network call. -/
theorem fetchAds_empty_payload_short_circuit (c : Criteria)
    (resp : AdsResponse) (h : (buildPayload c).isEmpty = true) :
    (fetchAdsRun c resp).networkCalled = false ∧
    (fetchAdsRun c resp).outcome = .ok [] := by
  unfold fetchAdsRun
  simp [h]

/-- Witness for C8: the empty criteria object never calls the webhook, even
when the provider would have listings to offer. -/
theorem fetchAds_empty_payload_short_circuit_witness :
    (fetchAdsRun {}
        (.okBody (.arr [⟨some "t", some "p", some "x"⟩]))).networkCalled =
      false ∧
    (fetchAdsRun {}
        (.okBody (.arr [⟨some "t", some "p", some "x"⟩]))).outcome = .ok [] :=
  fetchAds_empty_payload_short_circuit {}
    (.okBody (.arr [⟨some "t", some "p", some "x"⟩])) (by decide)

/-- Every entry of the area segment has key "area". -/
theorem mem_areaSeg_key (o : Option String) (kv : String × PayloadVal)
    (h : kv ∈ areaSeg o) : kv.1 = "area" := by
  cases o with
  | none => simp [areaSeg] at h
  | some a =>
    simp only [areaSeg] at h
    split at h
    · simp at h
    · simp at h
      simp [h]

/-- Every entry of the bedrooms segment has key "bedrooms". -/
theorem mem_bedsSeg_key (o : Option BedVal) (kv : String × PayloadVal)
    (h : kv ∈ bedsSeg o) : kv.1 = "bedrooms" := by
  cases o with
  | none => simp [bedsSeg] at h
  | some bv =>
    cases bv with
    | str s =>
      simp only [bedsSeg] at h
      split at h
      · split at h
        · simp at h; simp [h]
        · split at h
          · simp at h; simp [h]
          · simp at h
      · simp at h
    | num n =>
      simp only [bedsSeg] at h
      split at h
      · simp at h; simp [h]
      · simp at h

/-- Every entry of the maxPrice segment has key "maxPrice". -/
theorem mem_maxSeg_key (o : Option Nat) (kv : String × PayloadVal)
    (h : kv ∈ maxSeg o) : kv.1 = "maxPrice" := by
  cases o with
  | none => simp [maxSeg] at h
  | some v =>
    simp only [maxSeg] at h
    split at h
    · simp at h
    · simp at h
      simp [h]

/-- C9: the request body contains only the keys area, bedrooms and maxPrice
(propertyType and minPrice never appear); an empty body is never sent (a
network call implies a non-empty payload); a bedrooms string equal to
"studio" (case-insensitively) maps to the numeric value 0; other bedroom
strings are parsed to integers when possible and omitted when unparsable. -/
theorem fetchAds_payload_shape :
    (∀ (c : Criteria) (kv : String × PayloadVal), kv ∈ buildPayload c →
      kv.1 = "area" ∨ kv.1 = "bedrooms" ∨ kv.1 = "maxPrice") ∧
    (∀ (c : Criteria) (resp : AdsResponse),
      (fetchAdsRun c resp).networkCalled = true →
      (buildPayload c).isEmpty = false) ∧
    (∀ (c : Criteria) (s : String), c.bedrooms = some (.str s) →
      lcList s = "studio".data →
      ("bedrooms", PayloadVal.pnum 0) ∈ buildPayload c) ∧
    (∀ (c : Criteria) (s : String) (n : Int), c.bedrooms = some (.str s) →
      ¬(lcList s = "studio".data) → jsParseInt s.data = some n →
      ("bedrooms", PayloadVal.pnum n) ∈ buildPayload c) ∧
    (∀ (c : Criteria) (s : String), c.bedrooms = some (.str s) →
      ¬(lcList s = "studio".data) → jsParseInt s.data = none →
      ∀ v, ("bedrooms", v) ∉ buildPayload c) := by
  refine ⟨?_, ?_, ?_, ?_, ?_⟩
  · intro c kv h
    rcases List.mem_append.mp h with h | h
    · rcases List.mem_append.mp h with h | h
      · exact Or.inl (mem_areaSeg_key _ _ h)
      · exact Or.inr (Or.inl (mem_bedsSeg_key _ _ h))
    · exact Or.inr (Or.inr (mem_maxSeg_key _ _ h))
  · intro c resp h
    cases hb : (buildPayload c).isEmpty with
    | false => rfl
    | true =>
      simp [fetchAdsRun, hb] at h
  · intro c s hbed hstudio
    have hs : ¬(s = "") := by
      intro he
      subst he
      exact absurd hstudio (by decide)
    have hmem : ("bedrooms", PayloadVal.pnum 0) ∈ bedsSeg c.bedrooms := by
      rw [hbed]
      simp [bedsSeg, bedValTruthy, hs, hstudio]
    exact List.mem_append_left _ (List.mem_append_right _ hmem)
  · intro c s n hbed hstudio hparse
    have hs : ¬(s = "") := by
      intro he
      subst he
      rw [show jsParseInt "".data = none from rfl] at hparse
      exact Option.noConfusion hparse
    have hmem : ("bedrooms", PayloadVal.pnum n) ∈ bedsSeg c.bedrooms := by
      rw [hbed]
      simp [bedsSeg, bedValTruthy, hs, hstudio, hparse]
    exact List.mem_append_left _ (List.mem_append_right _ hmem)
  · intro c s hbed hstudio hparse v hmem
    rcases List.mem_append.mp hmem with h | h
    · rcases List.mem_append.mp h with h | h
      · have := mem_areaSeg_key _ _ h
        simp at this
      · rw [hbed] at h
        by_cases hs : s = ""
        · subst hs
          simp [bedsSeg, bedValTruthy] at h
        · simp [bedsSeg, bedValTruthy, hs, hstudio, hparse] at h
    · have := mem_maxSeg_key _ _ h
      simp at this

/-- Witness for C9: "Studio" maps to bedrooms 0, "3" to bedrooms 3, the
unparsable "abc" is omitted, and a criteria with an area yields a non-empty
payload. -/
theorem fetchAds_payload_shape_witness :
    ("bedrooms", PayloadVal.pnum 0) ∈
      buildPayload { bedrooms := some (.str "Studio") } ∧
    ("bedrooms", PayloadVal.pnum 3) ∈
      buildPayload { bedrooms := some (.str "3") } ∧
    ("bedrooms", PayloadVal.pnum 0) ∉
      buildPayload { bedrooms := some (.str "abc") } ∧
    (buildPayload { area := some "JVC" }).isEmpty = false := by
  refine ⟨?_, ?_, ?_, ?_⟩
  · exact fetchAds_payload_shape.2.2.1 { bedrooms := some (.str "Studio") }
      "Studio" rfl (by decide)
  · exact fetchAds_payload_shape.2.2.2.1 { bedrooms := some (.str "3") }
      "3" 3 rfl (by decide) (by decide)
  · exact fetchAds_payload_shape.2.2.2.2 { bedrooms := some (.str "abc") }
      "abc" rfl (by decide) (by decide) (PayloadVal.pnum 0)
  · exact fetchAds_payload_shape.2.1 { area := some "JVC" }
      .transportError rfl

/-- C4 counterexample: a present-but-falsy field is not written.  Saving
criteria whose `maxPrice` is present with value 0 over an existing row with
stored max_price 100 leaves the column at 100 instead of updating it: the
bound parameter is computed as `preferences.maxPrice || null`, so 0 becomes
NULL and the COALESCE keeps the stored value, contradicting "updating the
other provided fields". -/
theorem savePreferences_falsy_field_counterexample :
    (saveSearchPreferences "u"
        (some { area := some "JVC", property_type := some "apartment",
                bedrooms := some "2", max_price := some 100,
                min_price := none, last_updated := 5 })
        { maxPrice := some 0 } 10).map (fun r => r.max_price) =
      some (some 100) ∧
    ({ maxPrice := some 0 } : Criteria).maxPrice = some 0 ∧
    ¬((saveSearchPreferences "u"
        (some { area := some "JVC", property_type := some "apartment",
                bedrooms := some "2", max_price := some 100,
                min_price := none, last_updated := 5 })
        { maxPrice := some 0 } 10).map (fun r => r.max_price) =
      some (some 0)) := by
  refine ⟨rfl, rfl, ?_⟩
  intro h
  rw [show (saveSearchPreferences "u"
      (some { area := some "JVC", property_type := some "apartment",
              bedrooms := some "2", max_price := some 100,
              min_price := none, last_updated := 5 })
      { maxPrice := some 0 } 10).map (fun r => r.max_price) =
    some (some 100) from rfl] at h
  simp at h

/-- C4 amended: for a user with a stored row, `saveSearchPreferences`
updates only the columns whose new value is present with a truthy value
(nonempty string / nonzero number) and refreshes the timestamp; a field that
is absent — or present with a falsy value such as 0, which the `|| null`
parameter computation turns into NULL — leaves the stored value untouched
(coalesce-on-write).  Saving twice where the second save omits `area` leaves
the stored area intact while updating the other truthy provided fields.
When no row exists, a new row is inserted. -/
theorem savePreferences_coalesce_upsert (uid : String) (old : PrefRow)
    (prefs p1 p2 : Criteria) (t1 t2 now : Nat) (huid : ¬(uid = "")) :
    ((saveSearchPreferences uid (some old) prefs now).map
        (fun r => r.last_updated) = some now) ∧
    (prefs.area = none →
      (saveSearchPreferences uid (some old) prefs now).map (fun r => r.area) =
        some old.area) ∧
    (prefs.area = some "" →
      (saveSearchPreferences uid (some old) prefs now).map (fun r => r.area) =
        some old.area) ∧
    (∀ s, prefs.area = some s → ¬(s = "") →
      (saveSearchPreferences uid (some old) prefs now).map (fun r => r.area) =
        some (some s)) ∧
    (prefs.propertyType = none →
      (saveSearchPreferences uid (some old) prefs now).map
        (fun r => r.property_type) = some old.property_type) ∧
    (∀ s, prefs.propertyType = some s → ¬(s = "") →
      (saveSearchPreferences uid (some old) prefs now).map
        (fun r => r.property_type) = some (some s)) ∧
    (prefs.bedrooms = none →
      (saveSearchPreferences uid (some old) prefs now).map
        (fun r => r.bedrooms) = some old.bedrooms) ∧
    (∀ s, prefs.bedrooms = some (.str s) → ¬(s = "") →
      (saveSearchPreferences uid (some old) prefs now).map
        (fun r => r.bedrooms) = some (some s)) ∧
    (prefs.maxPrice = none ∨ prefs.maxPrice = some 0 →
      (saveSearchPreferences uid (some old) prefs now).map
        (fun r => r.max_price) = some old.max_price) ∧
    (∀ v, prefs.maxPrice = some v → ¬(v = 0) →
      (saveSearchPreferences uid (some old) prefs now).map
        (fun r => r.max_price) = some (some v)) ∧
    (prefs.minPrice = none ∨ prefs.minPrice = some 0 →
      (saveSearchPreferences uid (some old) prefs now).map
        (fun r => r.min_price) = some old.min_price) ∧
    (∀ v, prefs.minPrice = some v → ¬(v = 0) →
      (saveSearchPreferences uid (some old) prefs now).map
        (fun r => r.min_price) = some (some v)) ∧
    ((saveSearchPreferences uid none prefs now).map
        (fun r => r.last_updated) = some now) ∧
    (saveSearchPreferences uid none prefs now ≠ none) ∧
    (p2.area = none →
      (saveSearchPreferences uid
          (saveSearchPreferences uid (some old) p1 t1) p2 t2).map
        (fun r => r.area) =
      (saveSearchPreferences uid (some old) p1 t1).map (fun r => r.area)) ∧
    (∀ v, p2.maxPrice = some v → ¬(v = 0) →
      (saveSearchPreferences uid
          (saveSearchPreferences uid (some old) p1 t1) p2 t2).map
        (fun r => r.max_price) = some (some v)) := by
  refine ⟨?_, ?_, ?_, ?_, ?_, ?_, ?_, ?_, ?_, ?_, ?_, ?_, ?_, ?_, ?_, ?_⟩
  · simp [saveSearchPreferences, huid]
  · intro h
    simp [saveSearchPreferences, huid, coalesce, strParam, h]
  · intro h
    simp [saveSearchPreferences, huid, coalesce, strParam, h]
  · intro s h hs
    simp [saveSearchPreferences, huid, coalesce, strParam, h, hs]
  · intro h
    simp [saveSearchPreferences, huid, coalesce, strParam, h]
  · intro s h hs
    simp [saveSearchPreferences, huid, coalesce, strParam, h, hs]
  · intro h
    simp [saveSearchPreferences, huid, coalesce, bedParam, h]
  · intro s h hs
    simp [saveSearchPreferences, huid, coalesce, bedParam, bedToStringVal, h, hs]
  · rintro (h | h) <;>
      simp [saveSearchPreferences, huid, coalesce, natParam, h]
  · intro v h hv
    simp [saveSearchPreferences, huid, coalesce, natParam, h, hv]
  · rintro (h | h) <;>
      simp [saveSearchPreferences, huid, coalesce, natParam, h]
  · intro v h hv
    simp [saveSearchPreferences, huid, coalesce, natParam, h, hv]
  · simp [saveSearchPreferences, huid]
  · simp [saveSearchPreferences, huid]
  · intro h
    simp [saveSearchPreferences, huid, coalesce, strParam, h]
  · intro v h hv
    simp [saveSearchPreferences, huid, coalesce, natParam, h, hv]

/-- Witness for the amended C4 theorem: a concrete double save where the
second save omits the area and provides propertyType and maxPrice keeps the
stored area while updating the provided columns and the timestamp. -/
theorem savePreferences_coalesce_upsert_witness :
    ((saveSearchPreferences "u"
        (saveSearchPreferences "u"
          (some { area := some "JVC", property_type := some "apartment",
                  bedrooms := some "2", max_price := some 100,
                  min_price := none, last_updated := 5 })
          { area := some "Deira" } 7)
        { propertyType := some "villa", maxPrice := some 900000 } 9).map
      (fun r => r.area) = some (some "Deira")) ∧
    ((saveSearchPreferences "u"
        (saveSearchPreferences "u"
          (some { area := some "JVC", property_type := some "apartment",
                  bedrooms := some "2", max_price := some 100,
                  min_price := none, last_updated := 5 })
          { area := some "Deira" } 7)
        { propertyType := some "villa", maxPrice := some 900000 } 9).map
      (fun r => r.max_price) = some (some 900000)) := by
  constructor
  · have h := (savePreferences_coalesce_upsert "u"
      { area := some "JVC", property_type := some "apartment",
        bedrooms := some "2", max_price := some 100,
        min_price := none, last_updated := 5 }
      { area := some "Deira" } { area := some "Deira" }
      { propertyType := some "villa", maxPrice := some 900000 } 7 9 9
      (by decide)).2.2.2.2.2.2.2.2.2.2.2.2.2.2.1 rfl
    exact h.trans rfl
  · exact (savePreferences_coalesce_upsert "u"
      { area := some "JVC", property_type := some "apartment",
        bedrooms := some "2", max_price := some 100,
        min_price := none, last_updated := 5 }
      { area := some "Deira" } { area := some "Deira" }
      { propertyType := some "villa", maxPrice := some 900000 } 7 9 9
      (by decide)).2.2.2.2.2.2.2.2.2.2.2.2.2.2.2 900000 rfl (by decide)

end RealYield
